import Mathlib

/-!
Shallow embedding of the authentication subsystem of the mini sales
management system (Fastify + jose + bcrypt + zod).

Modelled source files:
  src/modules/auth/auth.controller.ts   (authenticate, refresh)
  src/common/middlewares/verify-jwt.middleware.ts  (verifyJWT)
  src/auth/schema/auth.schema.ts        (authUserSchema)
  src/common/constants/auth.constant.ts (key PEMs, expiration constants)
  src/users/user.route.ts               (preHandler hook wiring)

Conventions of the embedding:
  * Time is a Nat of seconds (jose compares the `exp` claim in seconds).
  * A PEM string is abstracted as a `Pem` value: a well-formedness flag
    (importPKCS8/importSPKI throw on a malformed PEM) plus a key identity;
    an RSA private/public pair shares the same `keyId`, so signature
    verification succeeds exactly when the verifying public key's id equals
    the id of the private key that signed.
  * bcrypt.compare is kept abstract: every definition and theorem is
    parameterised by `cmp : String → String → Bool` (password, storedHash).
  * A thrown-and-uncaught JS exception is the `HResult.thrown` constructor;
    Fastify's default error handler turns it into a generic 500 response
    with no cookies (`statusOf`/`cookiesOf`).
  * The postgres query `SELECT … FROM users WHERE email = $1` is modelled
    as filtering a `List UserRow` by exact email equality; `rows[0]` is
    `List.head?`.
-/

/-- A row of the `users` table as selected by the authenticate query:
`SELECT id, first_name, last_name, email, password FROM users WHERE email = $1`. -/
structure UserRow where
  id : String
  first_name : String
  last_name : String
  email : String
  password : String
deriving DecidableEq, Repr

/-- `userWithoutPassword`: the rest-spread `{ password: _, ...userWithoutPassword }`
of a `UserRow` — every column except `password`. -/
structure Claims where
  id : String
  first_name : String
  last_name : String
  email : String
deriving DecidableEq, Repr

/-- The rest-spread `const { password: _, ...userWithoutPassword } = user`. -/
def stripPassword (u : UserRow) : Claims :=
  { id := u.id, first_name := u.first_name, last_name := u.last_name, email := u.email }

/-- The list of string values occurring in a claims payload (used to state
that the password hash does not occur in an issued token). -/
def claimsFields (c : Claims) : List String :=
  [c.id, c.first_name, c.last_name, c.email]

/-- A PEM-encoded key string, abstracted: whether `jose.importPKCS8` /
`jose.importSPKI` accepts it, and the identity of the RSA key it encodes. -/
structure Pem where
  wellFormed : Bool
  keyId : Nat
deriving DecidableEq, Repr

/-- An imported RS256 private (signing) key. -/
structure PrivateKey where
  keyId : Nat
deriving DecidableEq, Repr

/-- An imported RS256 public (verification) key. -/
structure PublicKey where
  keyId : Nat
deriving DecidableEq, Repr

/-- `jose.importPKCS8(pem, "RS256")`: throws (None) on a malformed PEM. -/
def importPKCS8 (p : Pem) : Option PrivateKey :=
  if p.wellFormed then some { keyId := p.keyId } else none

/-- `jose.importSPKI(pem, "RS256")`: throws (None) on a malformed PEM. -/
def importSPKI (p : Pem) : Option PublicKey :=
  if p.wellFormed then some { keyId := p.keyId } else none

/-- `src/common/constants/auth.constant.ts`: `PRIVATE_PEM`, `PUBLIC_PEM`
come from the process environment and may be absent. -/
structure Config where
  PRIVATE_PEM : Option Pem
  PUBLIC_PEM : Option Pem
deriving DecidableEq, Repr

/-- `ACCESS_TOKEN_EXPIRATION = "15m"` (jose duration string). -/
def ACCESS_TOKEN_EXPIRATION : String := "15m"

/-- `REFRESH_TOKEN_EXPIRATION = "30d"` (jose duration string). -/
def REFRESH_TOKEN_EXPIRATION : String := "30d"

/-- `ACCESS_TOKEN_EXPIRATION_MS = 15 * 60 * 1000`. -/
def ACCESS_TOKEN_EXPIRATION_MS : Nat := 15 * 60 * 1000

/-- `REFRESH_TOKEN_EXPIRATION_MS = 30 * 24 * 60 * 60 * 1000`. -/
def REFRESH_TOKEN_EXPIRATION_MS : Nat := 30 * 24 * 60 * 60 * 1000

/-- jose's duration-string parsing, restricted to the two strings the
constants file uses: "15m" = 900 s, "30d" = 2592000 s. -/
def expirationSeconds (spec : String) : Nat :=
  if spec = "15m" then 15 * 60
  else if spec = "30d" then 30 * 24 * 60 * 60
  else 0

/-- A signed compact JWT (RS256): the claims it embeds, its `exp` claim
(seconds since epoch, set by `setExpirationTime`), and the identity of the
private key that signed it. -/
structure Jwt where
  claims : Claims
  exp : Nat
  sigKey : Nat
deriving DecidableEq, Repr

/-- `new jose.SignJWT(payload).setProtectedHeader({alg:"RS256"})
.setExpirationTime(spec).sign(key)` at current time `now`:
`setExpirationTime` sets the `exp` claim to `now + duration`. -/
def signJWT (payload : Claims) (spec : String) (now : Nat) (key : PrivateKey) : Jwt :=
  { claims := payload, exp := now + expirationSeconds spec, sigKey := key.keyId }

/-- The payload object returned by `jose.jwtVerify`: the embedded claims
together with the `exp` claim (jose returns the full payload). -/
structure VerifiedPayload where
  claims : Claims
  exp : Nat
deriving DecidableEq, Repr

/-- A cookie value arriving on a request: either a (structurally intact)
compact JWT, or an arbitrary string that is not a parsable JWT. -/
inductive CookieVal where
  | jwt (t : Jwt)
  | malformed (s : String)
deriving DecidableEq, Repr

/-- Outcome of `jose.jwtVerify(token, publicKey)` at time `now`. jose first
verifies the JWS signature (bad signature or malformed token → `invalid`,
i.e. a non-JWTExpired error), then validates the `exp` claim
(`exp ≤ now` → `expired`, i.e. JWTExpired). -/
inductive VerifyResult where
  | ok (payload : VerifiedPayload)
  | expired
  | invalid
deriving DecidableEq, Repr

/-- `jose.jwtVerify` as a function of the cookie value, the public key and
the current time. -/
def jwtVerify (v : CookieVal) (key : PublicKey) (now : Nat) : VerifyResult :=
  match v with
  | .malformed _ => .invalid
  | .jwt t =>
    if t.sigKey = key.keyId then
      if t.exp ≤ now then .expired else .ok { claims := t.claims, exp := t.exp }
    else .invalid

/-- Attributes passed to `reply.cookie(name, value, attrs)`. -/
structure CookieAttrs where
  httpOnly : Bool
  secure : Bool
  sameSite : String
  path : String
  maxAge : Nat
deriving DecidableEq, Repr

/-- The attribute object both controllers build, varying only in `maxAge`. -/
def authCookieAttrs (maxAge : Nat) : CookieAttrs :=
  { httpOnly := true, secure := true, sameSite := "none", path := "/", maxAge := maxAge }

/-- One `Set-Cookie` emitted via `reply.cookie`. -/
structure SetCookie where
  name : String
  value : Jwt
  attrs : CookieAttrs
deriving DecidableEq, Repr

/-- A JSON response body, one constructor per body shape the auth
subsystem produces. -/
inductive RespBody where
  | err (msg : String)
  | msg (s : String)
  | user (claims : Claims)
  | code (c : String)
deriving DecidableEq, Repr

/-- A JS exception thrown inside a handler. -/
inductive Exn where
  | zodError
  | importKeyError
  | joseExpired
  | joseInvalid
deriving DecidableEq, Repr

/-- Result of running a route handler: either a reply was sent (status,
body, Set-Cookie headers in emission order), or an exception escaped the
handler uncaught. -/
inductive HResult where
  | reply (status : Nat) (body : RespBody) (cookies : List SetCookie)
  | thrown (e : Exn)
deriving DecidableEq, Repr

/-- HTTP status the client observes: Fastify's default error handler maps
an uncaught exception (with no statusCode of its own — ZodError and the
jose errors have none) to a generic 500. -/
def statusOf : HResult → Nat
  | .reply s _ _ => s
  | .thrown _ => 500

/-- Set-Cookie headers the client observes; an uncaught exception reaches
the default error handler before any `reply.cookie` call, so none. -/
def cookiesOf : HResult → List SetCookie
  | .reply _ _ c => c
  | .thrown _ => []

/-- The `catch (error) { if (error instanceof ZodError) return 400; throw error; }`
block shared by both controllers, applied to the result of a try block. -/
def catchZod (r : HResult) : HResult :=
  match r with
  | .thrown .zodError => .reply 400 (.err "Validation error message") []
  | r => r

/-! ### Credential schema (`src/auth/schema/auth.schema.ts`, zod v4)

zod v4's `z.email()` default regex is
`^(?!\.)(?!.*\.\.)([A-Za-z0-9_'+\-\.]*)[A-Za-z0-9_+-]@([A-Za-z0-9][A-Za-z0-9\-]*\.)+[A-Za-z]{2,}$`,
implemented below character class by character class (ASCII, as in the regex). -/

/-- Character class `[A-Za-z0-9_'+\-\.]` of the email local part. -/
def isLocalChar (c : Char) : Bool :=
  c.isAlpha || c.isDigit || c = '_' || c = Char.ofNat 39 || c = '+' || c = '-' || c = '.'

/-- Character class `[A-Za-z0-9_+-]` required of the local part's last character. -/
def isLocalLastChar (c : Char) : Bool :=
  c.isAlpha || c.isDigit || c = '_' || c = '+' || c = '-'

/-- Character class `[A-Za-z0-9\-]` of a domain label's tail. -/
def isLabelChar (c : Char) : Bool :=
  c.isAlpha || c.isDigit || c = '-'

/-- The `(?!.*\.\.)` lookahead: no two consecutive dots anywhere. -/
def noDoubleDot : List Char → Bool
  | [] => true
  | [_] => true
  | c1 :: c2 :: rest => !(c1 = '.' && c2 = '.') && noDoubleDot (c2 :: rest)

/-- Split a character list on a separator character (the groups between
separator occurrences, in order). -/
def splitOnChar (sep : Char) : List Char → List (List Char)
  | [] => [[]]
  | c :: rest =>
    if c = sep then [] :: splitOnChar sep rest
    else
      match splitOnChar sep rest with
      | [] => [[c]]
      | g :: gs => (c :: g) :: gs

/-- `([A-Za-z0-9_'+\-\.]*)[A-Za-z0-9_+-]`: the part before `@`. -/
def localPartValid (lp : List Char) : Bool :=
  match lp.reverse with
  | [] => false
  | c :: rest => isLocalLastChar c && rest.all isLocalChar

/-- One `[A-Za-z0-9][A-Za-z0-9\-]*` domain label. -/
def domainLabelValid (l : List Char) : Bool :=
  match l with
  | [] => false
  | c :: rest => (c.isAlpha || c.isDigit) && rest.all isLabelChar

/-- The trailing `[A-Za-z]{2,}` top-level label. -/
def tldValid (l : List Char) : Bool :=
  l.length ≥ 2 && l.all Char.isAlpha

/-- `([A-Za-z0-9][A-Za-z0-9\-]*\.)+[A-Za-z]{2,}`: the part after `@`,
its labels obtained by splitting on `.`. -/
def domainValid (d : List Char) : Bool :=
  match (splitOnChar '.' d).reverse with
  | [] => false
  | [_] => false
  | tld :: labels => tldValid tld && labels.all domainLabelValid

/-- `z.email("Invalid email format")` (zod v4 default email regex; the
character classes exclude `@`, so the regex matches exactly when splitting
on `@` yields one local part and one domain). -/
def emailValid (s : String) : Bool :=
  (match s.data with
   | [] => false
   | c :: _ => c ≠ '.') &&
  noDoubleDot s.data &&
    (match splitOnChar '@' s.data with
     | [lp, d] => localPartValid lp && domainValid d
     | _ => false)

/-- The password rules of `authUserSchema`: `.min(8).max(100)` plus one
uppercase letter, one lowercase letter and one digit. -/
def passwordValid (p : String) : Bool :=
  p.length ≥ 8 && p.length ≤ 100 &&
    p.data.any Char.isUpper && p.data.any Char.isLower && p.data.any Char.isDigit

/-- The request body `{email, password}` (`AuthUser` in the source). -/
structure AuthUser where
  email : String
  password : String
deriving DecidableEq, Repr

/-- `authUserSchema.parse(request.body)`: returns the parsed pair, or
throws a `ZodError` (None) when a field fails its rule. -/
def authUserSchema.parse (body : AuthUser) : Option AuthUser :=
  if emailValid body.email && passwordValid body.password then some body else none

/-! ### The `authenticate` controller (`auth.controller.ts` lines 21–89) -/

/-- Body of `authenticate`'s `try` block, entered with the parsed
credentials and the present `PRIVATE_PEM`: query the store by exact email,
take `rows[0]`, compare the password with bcrypt, strip the password, then
key import, signing of both tokens, both cookie writes, and return of the
claims. Exceptions thrown inside (key import failure) surface as
`.thrown`. -/
def authenticateTry (cmp : String → String → Bool) (db : List UserRow) (now : Nat)
    (privatePem : Pem) (email password : String) : HResult :=
  match (db.filter (fun r => r.email = email)).head? with
  | none => .reply 401 (.err "Invalid credentials") []
  | some user =>
    if cmp password user.password then
      let userWithoutPassword := stripPassword user
      match importPKCS8 privatePem with
      | none => .thrown .importKeyError
      | some privateKey =>
        let accessToken := signJWT userWithoutPassword ACCESS_TOKEN_EXPIRATION now privateKey
        let refreshToken := signJWT userWithoutPassword REFRESH_TOKEN_EXPIRATION now privateKey
        .reply 200 (.user userWithoutPassword)
          [ { name := "accessToken", value := accessToken,
              attrs := authCookieAttrs ACCESS_TOKEN_EXPIRATION_MS },
            { name := "refreshToken", value := refreshToken,
              attrs := authCookieAttrs REFRESH_TOKEN_EXPIRATION_MS } ]
    else .reply 401 (.err "Invalid credentials") []

/-- The `authenticate` handler. Note the source's order: `authUserSchema
.parse` runs first and OUTSIDE the try/catch (an invalid body throws an
uncaught ZodError), then the `!PRIVATE_PEM` truthiness guard, then the try
block wrapped in the ZodError-only catch. -/
def authenticate (cmp : String → String → Bool) (cfg : Config) (db : List UserRow)
    (now : Nat) (body : AuthUser) : HResult :=
  match authUserSchema.parse body with
  | none => .thrown .zodError
  | some parsed =>
    match cfg.PRIVATE_PEM with
    | none => .reply 500 (.err "Server configuration error") []
    | some privatePem =>
      catchZod (authenticateTry cmp db now privatePem parsed.email parsed.password)

/-! ### The `refresh` controller (`auth.controller.ts` lines 97–138) -/

/-- The cookies carried by a request (`request.cookies`). -/
structure ReqCookies where
  accessToken : Option CookieVal
  refreshToken : Option CookieVal
deriving DecidableEq, Repr

/-- Body of `refresh`'s `try` block: import the public key, verify the
refresh-token cookie, import the private key, re-sign a fresh access token
from the verified payload (`new SignJWT(user)` starts from the full
verified payload and `setExpirationTime` overwrites its `exp` claim, so
the new token's claims equal the old ones), set the access cookie. jose
verification failures are thrown; the ZodError-only catch rethrows them. -/
def refreshTry (now : Nat) (publicPem privatePem : Pem) (refreshToken : CookieVal) : HResult :=
  match importSPKI publicPem with
  | none => .thrown .importKeyError
  | some publicKey =>
    match jwtVerify refreshToken publicKey now with
    | .expired => .thrown .joseExpired
    | .invalid => .thrown .joseInvalid
    | .ok user =>
      match importPKCS8 privatePem with
      | none => .thrown .importKeyError
      | some privateKey =>
        let accessToken : Jwt :=
          { claims := user.claims,
            exp := now + expirationSeconds ACCESS_TOKEN_EXPIRATION,
            sigKey := privateKey.keyId }
        .reply 200 (.msg "New access token created")
          [ { name := "accessToken", value := accessToken,
              attrs := authCookieAttrs ACCESS_TOKEN_EXPIRATION_MS } ]

/-- The `refresh` handler: early return 401 when the refresh cookie is
absent, 500 when either PEM is missing, then the try block wrapped in the
ZodError-only catch. -/
def refresh (cfg : Config) (cookies : ReqCookies) (now : Nat) : HResult :=
  match cookies.refreshToken with
  | none => .reply 401 (.msg "No refresh token found") []
  | some rt =>
    match cfg.PUBLIC_PEM, cfg.PRIVATE_PEM with
    | some publicPem, some privatePem => catchZod (refreshTry now publicPem privatePem rt)
    | _, _ => .reply 500 (.err "Server configuration error") []

/-! ### The access-gate middleware (`verify-jwt.middleware.ts`) -/

/-- Outcome of the `verifyJWT` preHandler hook: either a response was sent
(short-circuit, the route handler never runs), or the request is admitted
with `request.user` set to the verified payload. -/
inductive GateResult where
  | deny (status : Nat) (body : RespBody)
  | allow (user : VerifiedPayload)
deriving DecidableEq, Repr

/-- The `verifyJWT` middleware: missing cookie → 401 ACCESS_TOKEN_EXPIRED;
missing public key → 500; then inside try: import the key and verify —
`JWTExpired` → 401 ACCESS_TOKEN_EXPIRED, any other exception (including a
key-import failure) → 403 Invalid access token; on success attach the
payload and fall through (admit). -/
def verifyJWT (cfg : Config) (cookies : ReqCookies) (now : Nat) : GateResult :=
  match cookies.accessToken with
  | none => .deny 401 (.code "ACCESS_TOKEN_EXPIRED")
  | some accessToken =>
    match cfg.PUBLIC_PEM with
    | none => .deny 500 (.err "Server configuration error")
    | some publicPem =>
      match importSPKI publicPem with
      | none => .deny 403 (.msg "Invalid access token")
      | some publicKey =>
        match jwtVerify accessToken publicKey now with
        | .expired => .deny 401 (.code "ACCESS_TOKEN_EXPIRED")
        | .invalid => .deny 403 (.msg "Invalid access token")
        | .ok payload => .allow payload

/-- A protected route (`fastify.addHook("preHandler", verifyJWT)` then the
route handler): the handler runs, seeing the attached payload, only when
the gate admits; otherwise the gate's short-circuit response is the
route's response (and it sets no cookies). -/
def protectedRoute (handler : VerifiedPayload → HResult) (cfg : Config)
    (cookies : ReqCookies) (now : Nat) : HResult :=
  match verifyJWT cfg cookies now with
  | .deny s b => .reply s b []
  | .allow user => handler user

/-! ### Concrete example values used by witnesses and counterexamples -/

/-- A concrete bcrypt comparison: the stored hash of `p` is `"hash-of-" ++ p`. -/
def cmp0 : String → String → Bool := fun p h => h = "hash-of-" ++ p

/-- A concrete well-formed PEM for RSA key pair number 7. -/
def pem0 : Pem := { wellFormed := true, keyId := 7 }

/-- A configuration with both keys present. -/
def cfg0 : Config := { PRIVATE_PEM := some pem0, PUBLIC_PEM := some pem0 }

/-- A configuration whose private key is absent. -/
def cfgNoPriv : Config := { PRIVATE_PEM := none, PUBLIC_PEM := some pem0 }

/-- A concrete stored user row. -/
def user0 : UserRow :=
  { id := "u1", first_name := "Ada", last_name := "L", email := "a@b.co",
    password := "hash-of-Secret123" }

/-- `user0` without its password column. -/
def claims0 : Claims := stripPassword user0

/-- A well-formed credential body matching `user0`. -/
def body0 : AuthUser := { email := "a@b.co", password := "Secret123" }

/-! ## Claims -/

/-- C8: for every refresh request with no refresh-token cookie, `refresh`
returns 401 with the NoRefreshToken message and emits no Set-Cookie
header. -/
theorem refresh_missing_cookie_spec (cfg : Config) (accessTok : Option CookieVal) (now : Nat) :
    refresh cfg { accessToken := accessTok, refreshToken := none } now
      = .reply 401 (.msg "No refresh token found") []
    ∧ cookiesOf (refresh cfg { accessToken := accessTok, refreshToken := none } now) = [] := by
  constructor <;> rfl

/-- C9: verifying a token immediately after signing it with the 15-minute
expiry, against the matching public key, succeeds and returns the original
claims payload (token-codec round-trip). -/
theorem jwtVerify_signJWT_roundtrip (payload : Claims) (priv : PrivateKey) (pub : PublicKey)
    (now : Nat) (hmatch : pub.keyId = priv.keyId) :
    jwtVerify (.jwt (signJWT payload ACCESS_TOKEN_EXPIRATION now priv)) pub now
        = .ok { claims := payload, exp := now + 15 * 60 }
      ∧ ({ claims := payload, exp := now + 15 * 60 : VerifiedPayload }).claims = payload := by
  have h2 : ¬ (now + 15 * 60 ≤ now) := by omega
  refine ⟨?_, rfl⟩
  simp [jwtVerify, signJWT, hmatch, expirationSeconds, ACCESS_TOKEN_EXPIRATION, h2]

/-- Witness for C9 at a concrete payload, key pair and time. -/
theorem jwtVerify_signJWT_roundtrip_witness :
    jwtVerify (.jwt (signJWT claims0 ACCESS_TOKEN_EXPIRATION 1000 { keyId := 7 }))
        { keyId := 7 } 1000 = .ok { claims := claims0, exp := 1000 + 15 * 60 } :=
  (jwtVerify_signJWT_roundtrip claims0 { keyId := 7 } { keyId := 7 } 1000 rfl).1

/-- C10: `authenticate` is atomic with respect to cookies — on every
failing path (thrown validation error, missing private key, unknown email,
password mismatch, key-import error) the client observes no Set-Cookie;
both token cookies appear only on the single 200 success path, after both
tokens have been signed. -/
theorem authenticate_cookie_atomicity (cmp : String → String → Bool) (cfg : Config)
    (db : List UserRow) (now : Nat) (body : AuthUser) :
    cookiesOf (authenticate cmp cfg db now body) = []
    ∨ ∃ user pem, cfg.PRIVATE_PEM = some pem ∧
        authenticate cmp cfg db now body =
          .reply 200 (.user (stripPassword user))
            [ { name := "accessToken",
                value := signJWT (stripPassword user) ACCESS_TOKEN_EXPIRATION now
                  { keyId := pem.keyId },
                attrs := authCookieAttrs ACCESS_TOKEN_EXPIRATION_MS },
              { name := "refreshToken",
                value := signJWT (stripPassword user) REFRESH_TOKEN_EXPIRATION now
                  { keyId := pem.keyId },
                attrs := authCookieAttrs REFRESH_TOKEN_EXPIRATION_MS } ] := by
  unfold authenticate
  split
  · left; rfl
  · next parsed hp =>
    split
    · left; rfl
    · next pem hk =>
      unfold authenticateTry
      split
      · left; rfl
      · next user hr =>
        by_cases hc : cmp parsed.password user.password = true
        · rw [if_pos hc]
          by_cases hw : pem.wellFormed = true
          · right
            refine ⟨user, pem, hk, ?_⟩
            simp [importPKCS8, hw, catchZod]
          · left
            simp [importPKCS8, Bool.of_not_eq_true hw, catchZod, cookiesOf]
        · rw [if_neg hc]
          left; rfl
/-- C2: with the private key configured and a well-formed credential body,
`authenticate` returns the identical failure — 401, body "Invalid
credentials", no cookies — whether the email matches no stored row or the
row's password hash does not match, so the response does not reveal
whether the email exists. -/
theorem authenticate_enumeration_safe (cmp : String → String → Bool) (cfg : Config)
    (db : List UserRow) (now : Nat) (body : AuthUser) (pem : Pem)
    (hkey : cfg.PRIVATE_PEM = some pem)
    (hshape : authUserSchema.parse body = some body)
    (hfail : (db.filter (fun r => r.email = body.email)).head? = none
      ∨ ∃ user, (db.filter (fun r => r.email = body.email)).head? = some user
          ∧ cmp body.password user.password = false) :
    authenticate cmp cfg db now body = .reply 401 (.err "Invalid credentials") [] := by
  unfold authenticate
  rw [hshape, hkey]
  show catchZod (authenticateTry cmp db now pem body.email body.password) = _
  unfold authenticateTry
  split
  · rfl
  · next user2 h2 =>
    rcases hfail with hnone | ⟨user, hsome, hc⟩
    · rw [hnone] at h2; cases h2
    · rw [hsome] at h2
      injection h2 with h3
      subst h3
      simp [hc, catchZod]

/-- C3: for a valid credential matching a stored row, `authenticate`
returns 200 with the user's claims (password stripped) and sets exactly
the two cookies accessToken/refreshToken; both signed payloads carry the
same claims as the body and differ only in expiry (15 min vs 30 days),
with attributes httpOnly, secure, sameSite none, path "/" and maxAge
900000 resp. 2592000000; the token claims consist exactly of the
non-password columns, so the password hash appears in no issued token. -/
theorem authenticate_success_spec (cmp : String → String → Bool) (cfg : Config)
    (db : List UserRow) (now : Nat) (body : AuthUser) (pem : Pem) (user : UserRow)
    (hkey : cfg.PRIVATE_PEM = some pem) (hw : pem.wellFormed = true)
    (hshape : authUserSchema.parse body = some body)
    (hrow : (db.filter (fun r => r.email = body.email)).head? = some user)
    (hpw : cmp body.password user.password = true) :
    authenticate cmp cfg db now body =
      .reply 200 (.user (stripPassword user))
        [ { name := "accessToken",
            value := { claims := stripPassword user, exp := now + 15 * 60, sigKey := pem.keyId },
            attrs := { httpOnly := true, secure := true, sameSite := "none", path := "/",
                       maxAge := 900000 } },
          { name := "refreshToken",
            value := { claims := stripPassword user, exp := now + 30 * 24 * 60 * 60,
                       sigKey := pem.keyId },
            attrs := { httpOnly := true, secure := true, sameSite := "none", path := "/",
                       maxAge := 2592000000 } } ]
    ∧ claimsFields (stripPassword user) = [user.id, user.first_name, user.last_name, user.email]
    ∧ (user.password ∉ [user.id, user.first_name, user.last_name, user.email] →
        ∀ c ∈ cookiesOf (authenticate cmp cfg db now body),
          user.password ∉ claimsFields c.value.claims) := by
  have hmain : authenticate cmp cfg db now body =
      .reply 200 (.user (stripPassword user))
        [ { name := "accessToken",
            value := { claims := stripPassword user, exp := now + 15 * 60, sigKey := pem.keyId },
            attrs := { httpOnly := true, secure := true, sameSite := "none", path := "/",
                       maxAge := 900000 } },
          { name := "refreshToken",
            value := { claims := stripPassword user, exp := now + 30 * 24 * 60 * 60,
                       sigKey := pem.keyId },
            attrs := { httpOnly := true, secure := true, sameSite := "none", path := "/",
                       maxAge := 2592000000 } } ] := by
    unfold authenticate
    rw [hshape, hkey]
    show catchZod (authenticateTry cmp db now pem body.email body.password) = _
    unfold authenticateTry
    rw [hrow]
    simp [hpw, importPKCS8, hw, catchZod, signJWT, expirationSeconds,
      ACCESS_TOKEN_EXPIRATION, REFRESH_TOKEN_EXPIRATION, ACCESS_TOKEN_EXPIRATION_MS,
      REFRESH_TOKEN_EXPIRATION_MS, authCookieAttrs]
  refine ⟨hmain, rfl, ?_⟩
  intro hnp c hc
  rw [hmain] at hc
  simp only [cookiesOf, List.mem_cons, List.not_mem_nil, or_false] at hc
  rcases hc with rfl | rfl <;> simpa [claimsFields, stripPassword] using hnp
/-- Witness for C2: both failure cases (unknown email; wrong password)
evaluate to the same concrete 401 response. -/
theorem authenticate_enumeration_safe_witness :
    authenticate cmp0 cfg0 [] 1000 body0 = .reply 401 (.err "Invalid credentials") []
    ∧ authenticate cmp0 cfg0 [user0] 1000 { email := "a@b.co", password := "Wrong1234" }
        = .reply 401 (.err "Invalid credentials") [] :=
  ⟨authenticate_enumeration_safe cmp0 cfg0 [] 1000 body0 pem0 rfl (by decide) (Or.inl rfl),
   authenticate_enumeration_safe cmp0 cfg0 [user0] 1000
     { email := "a@b.co", password := "Wrong1234" } pem0 rfl (by decide)
     (Or.inr ⟨user0, by decide, by decide⟩)⟩

/-- Witness for C3 at a concrete user, credential and key pair. -/
theorem authenticate_success_spec_witness :
    authenticate cmp0 cfg0 [user0] 1000 body0 =
      .reply 200 (.user claims0)
        [ { name := "accessToken",
            value := { claims := claims0, exp := 1000 + 15 * 60, sigKey := 7 },
            attrs := { httpOnly := true, secure := true, sameSite := "none", path := "/",
                       maxAge := 900000 } },
          { name := "refreshToken",
            value := { claims := claims0, exp := 1000 + 30 * 24 * 60 * 60, sigKey := 7 },
            attrs := { httpOnly := true, secure := true, sameSite := "none", path := "/",
                       maxAge := 2592000000 } } ] :=
  (authenticate_success_spec cmp0 cfg0 [user0] 1000 body0 pem0 user0 rfl rfl (by decide)
    (by decide) (by decide)).1

/-- C4 (code bug): a body failing credential-shape validation makes
`authenticate` throw the ZodError uncaught — the parse runs before the
try/catch, so the handler's own ZodError-to-400 branch never fires — and
the client observes Fastify's generic 500, not the documented 400. The
result is independent of the store (universally quantified `db`), so no
query is issued first, but the status contradicts the claim's (and the
handler's doc comment's) 400. -/
theorem authenticate_invalid_shape_uncaught (cmp : String → String → Bool) (cfg : Config)
    (db : List UserRow) (now : Nat) :
    authenticate cmp cfg db now { email := "not-an-email", password := "Secret123" }
        = .thrown .zodError
    ∧ statusOf (authenticate cmp cfg db now { email := "not-an-email", password := "Secret123" })
        = 500
    ∧ statusOf (authenticate cmp cfg db now { email := "not-an-email", password := "Secret123" })
        ≠ 400 := by
  have hp : authUserSchema.parse { email := "not-an-email", password := "Secret123" } = none := by
    decide
  have h : authenticate cmp cfg db now { email := "not-an-email", password := "Secret123" }
      = .thrown .zodError := by
    simp [authenticate, hp]
  exact ⟨h, by rw [h]; rfl, by rw [h]; decide⟩

/-- Counterexample to C5: with both keys configured, a refresh request
carrying an expired refresh token does not get a 401 — the JWTExpired
error is rethrown by the ZodError-only catch and surfaces as a generic
500. -/
theorem refresh_verify_failure_cex :
    refresh cfg0
        { accessToken := none,
          refreshToken := some (.jwt { claims := claims0, exp := 500, sigKey := 7 }) } 1000
        = .thrown .joseExpired
    ∧ statusOf (refresh cfg0
        { accessToken := none,
          refreshToken := some (.jwt { claims := claims0, exp := 500, sigKey := 7 }) } 1000)
        ≠ 401 := by decide

/-- C5 as amended: for every refresh request whose refresh-token cookie
fails verification (expired, bad signature, or malformed), with both keys
configured, the verification error propagates uncaught and `refresh`
responds with a non-2xx failure — the generic 500 from the top-level
handler, not a 401; no cookie is set. -/
theorem refresh_verify_failure_propagates (cfg : Config) (cookies : ReqCookies) (now : Nat)
    (rt : CookieVal) (publicPem privatePem : Pem)
    (hrt : cookies.refreshToken = some rt)
    (hpub : cfg.PUBLIC_PEM = some publicPem) (hpriv : cfg.PRIVATE_PEM = some privatePem)
    (hw : publicPem.wellFormed = true)
    (hfail : jwtVerify rt { keyId := publicPem.keyId } now = .expired
      ∨ jwtVerify rt { keyId := publicPem.keyId } now = .invalid) :
    (∃ e, refresh cfg cookies now = .thrown e ∧ e ≠ .zodError)
    ∧ statusOf (refresh cfg cookies now) = 500
    ∧ statusOf (refresh cfg cookies now) ≠ 401
    ∧ statusOf (refresh cfg cookies now) ≠ 200 := by
  have hspki : importSPKI publicPem = some { keyId := publicPem.keyId } := by
    simp [importSPKI, hw]
  have hmain : ∃ e, refresh cfg cookies now = .thrown e ∧ e ≠ .zodError := by
    unfold refresh
    rw [hrt, hpub, hpriv]
    show ∃ e, catchZod (refreshTry now publicPem privatePem rt) = .thrown e ∧ e ≠ .zodError
    unfold refreshTry
    rcases hfail with h | h
    · exact ⟨.joseExpired, by simp only [hspki, h]; rfl, by decide⟩
    · exact ⟨.joseInvalid, by simp only [hspki, h]; rfl, by decide⟩
  obtain ⟨e, he, hez⟩ := hmain
  refine ⟨⟨e, he, hez⟩, ?_, ?_, ?_⟩ <;> rw [he] <;> simp [statusOf]

/-- Witness for amended C5 at a concrete malformed refresh token. -/
theorem refresh_verify_failure_propagates_witness :
    statusOf (refresh cfg0
      { accessToken := none,
        refreshToken := some (.malformed "garbage") } 1000) = 500 :=
  (refresh_verify_failure_propagates cfg0
    { accessToken := none, refreshToken := some (.malformed "garbage") } 1000
    (.malformed "garbage") pem0 pem0 rfl rfl rfl rfl (Or.inr rfl)).2.1

/-- C6: a refresh request with a valid, unexpired refresh token gets a
new accessToken cookie whose signed payload equals the refresh token's
claims (expiry replaced by a fresh 15-minute one), with the same cookie
attributes as `authenticate`; the only Set-Cookie is `accessToken` — the
refreshToken cookie is left untouched (no rotation) — and the body is the
confirmation message with no data. -/
theorem refresh_success_spec (cfg : Config) (cookies : ReqCookies) (now : Nat)
    (t : Jwt) (publicPem privatePem : Pem)
    (hrt : cookies.refreshToken = some (.jwt t))
    (hpub : cfg.PUBLIC_PEM = some publicPem) (hpriv : cfg.PRIVATE_PEM = some privatePem)
    (hpubw : publicPem.wellFormed = true) (hprivw : privatePem.wellFormed = true)
    (hsig : t.sigKey = publicPem.keyId) (hexp : ¬ t.exp ≤ now) :
    refresh cfg cookies now =
      .reply 200 (.msg "New access token created")
        [ { name := "accessToken",
            value := { claims := t.claims, exp := now + 15 * 60, sigKey := privatePem.keyId },
            attrs := { httpOnly := true, secure := true, sameSite := "none", path := "/",
                       maxAge := 900000 } } ]
    ∧ (∀ c ∈ cookiesOf (refresh cfg cookies now), c.name = "accessToken") := by
  have hspki : importSPKI publicPem = some { keyId := publicPem.keyId } := by
    simp [importSPKI, hpubw]
  have hpkcs : importPKCS8 privatePem = some { keyId := privatePem.keyId } := by
    simp [importPKCS8, hprivw]
  have hver : jwtVerify (.jwt t) { keyId := publicPem.keyId } now
      = .ok { claims := t.claims, exp := t.exp } := by
    simp [jwtVerify, hsig, hexp]
  have hmain : refresh cfg cookies now =
      .reply 200 (.msg "New access token created")
        [ { name := "accessToken",
            value := { claims := t.claims, exp := now + 15 * 60, sigKey := privatePem.keyId },
            attrs := { httpOnly := true, secure := true, sameSite := "none", path := "/",
                       maxAge := 900000 } } ] := by
    unfold refresh
    rw [hrt, hpub, hpriv]
    show catchZod (refreshTry now publicPem privatePem (.jwt t)) = _
    unfold refreshTry
    simp only [hspki, hver, hpkcs]
    simp [catchZod, expirationSeconds, ACCESS_TOKEN_EXPIRATION, ACCESS_TOKEN_EXPIRATION_MS,
      authCookieAttrs]
  refine ⟨hmain, ?_⟩
  intro c hc
  rw [hmain] at hc
  simp only [cookiesOf, List.mem_cons, List.not_mem_nil, or_false] at hc
  rw [hc]

/-- Witness for C6 at a concrete refresh token and key pair. -/
theorem refresh_success_spec_witness :
    refresh cfg0
        { accessToken := none,
          refreshToken := some (.jwt { claims := claims0, exp := 99999, sigKey := 7 }) } 1000
      = .reply 200 (.msg "New access token created")
        [ { name := "accessToken",
            value := { claims := claims0, exp := 1000 + 15 * 60, sigKey := 7 },
            attrs := { httpOnly := true, secure := true, sameSite := "none", path := "/",
                       maxAge := 900000 } } ] :=
  (refresh_success_spec cfg0
    { accessToken := none,
      refreshToken := some (.jwt { claims := claims0, exp := 99999, sigKey := 7 }) } 1000
    { claims := claims0, exp := 99999, sigKey := 7 } pem0 pem0 rfl rfl rfl rfl rfl rfl
    (by decide)).1

/-- Counterexample to C7: with the private key absent and an unknown
email (well-formed credentials, empty store), `authenticate` answers 500
ServerConfigurationError, not the claimed 401 InvalidCredentials — the
key check runs before the credential lookup. -/
theorem authenticate_key_absent_cex :
    authenticate cmp0 cfgNoPriv [] 1000 body0
        = .reply 500 (.err "Server configuration error") []
    ∧ statusOf (authenticate cmp0 cfgNoPriv [] 1000 body0) ≠ 401
    ∧ authenticate cmp0 cfgNoPriv [] 1000 body0
        ≠ .reply 401 (.err "Invalid credentials") [] := by decide

/-- C7 as amended: the private-key availability check precedes
credential verification — when the private key is absent, every
well-formed request fails with ServerConfigurationError (500) regardless
of the store's contents, and an InvalidCredentials (401) response can
only arise when the private key is present. -/
theorem authenticate_key_check_precedes_credentials (cmp : String → String → Bool)
    (cfg : Config) (db : List UserRow) (now : Nat) (body : AuthUser) :
    (cfg.PRIVATE_PEM = none → authUserSchema.parse body = some body →
        authenticate cmp cfg db now body = .reply 500 (.err "Server configuration error") [])
    ∧ (∀ s c, authenticate cmp cfg db now body = .reply s (.err "Invalid credentials") c →
        cfg.PRIVATE_PEM ≠ none) := by
  constructor
  · intro hnone hshape
    simp [authenticate, hshape, hnone]
  · intro s c h hnone
    unfold authenticate at h
    rw [hnone] at h
    cases hp : authUserSchema.parse body with
    | none => rw [hp] at h; cases h
    | some parsed => rw [hp] at h; simp at h

/-- Witness for amended C7: concrete well-formed credentials against a
store that does contain the user still get 500 when the key is absent. -/
theorem authenticate_key_check_precedes_credentials_witness :
    authenticate cmp0 cfgNoPriv [user0] 1000 body0
      = .reply 500 (.err "Server configuration error") [] :=
  (authenticate_key_check_precedes_credentials cmp0 cfgNoPriv [user0] 1000 body0).1 rfl
    (by decide)
/-- C1: the access-gate middleware admits the handler only after
successful token verification. Absent access-token cookie → 401 with code
ACCESS_TOKEN_EXPIRED; absent public key → 500 ServerConfigurationError;
valid signature but expired → 401 ACCESS_TOKEN_EXPIRED; any other
verification failure (malformed token, wrong signature, bad key PEM) →
the distinct 403 invalid-access-token response; on success the verified
payload is attached and the handler runs. The final disjunct is
fail-closed-ness: every request either reaches the handler through an
explicit allow or receives the gate's short-circuit response. -/
theorem verifyJWT_gate_spec (handler : VerifiedPayload → HResult) (cfg : Config)
    (cookies : ReqCookies) (now : Nat) :
    (cookies.accessToken = none →
      protectedRoute handler cfg cookies now = .reply 401 (.code "ACCESS_TOKEN_EXPIRED") [])
    ∧ (∀ v, cookies.accessToken = some v → cfg.PUBLIC_PEM = none →
      protectedRoute handler cfg cookies now = .reply 500 (.err "Server configuration error") [])
    ∧ (∀ t pem, cookies.accessToken = some (.jwt t) → cfg.PUBLIC_PEM = some pem →
        pem.wellFormed = true → t.sigKey = pem.keyId → t.exp ≤ now →
      protectedRoute handler cfg cookies now = .reply 401 (.code "ACCESS_TOKEN_EXPIRED") [])
    ∧ (∀ v pem, cookies.accessToken = some v → cfg.PUBLIC_PEM = some pem →
        (pem.wellFormed = false
          ∨ (pem.wellFormed = true ∧ jwtVerify v { keyId := pem.keyId } now = .invalid)) →
      protectedRoute handler cfg cookies now = .reply 403 (.msg "Invalid access token") [])
    ∧ (∀ v pem p, cookies.accessToken = some v → cfg.PUBLIC_PEM = some pem →
        pem.wellFormed = true → jwtVerify v { keyId := pem.keyId } now = .ok p →
      verifyJWT cfg cookies now = .allow p
        ∧ protectedRoute handler cfg cookies now = handler p)
    ∧ ((∃ p, verifyJWT cfg cookies now = .allow p
          ∧ protectedRoute handler cfg cookies now = handler p)
      ∨ (∃ s b, verifyJWT cfg cookies now = .deny s b
          ∧ protectedRoute handler cfg cookies now = .reply s b [])) := by
  refine ⟨?_, ?_, ?_, ?_, ?_, ?_⟩
  · intro h
    unfold protectedRoute verifyJWT
    rw [h]
  · intro v hv hp
    unfold protectedRoute verifyJWT
    rw [hv, hp]
  · intro t pem ht hp hw hsig hexp
    have hspki : importSPKI pem = some { keyId := pem.keyId } := by simp [importSPKI, hw]
    have hver : jwtVerify (.jwt t) { keyId := pem.keyId } now = .expired := by
      simp [jwtVerify, hsig, hexp]
    unfold protectedRoute verifyJWT
    rw [ht, hp]
    simp only [hspki, hver]
  · intro v pem hv hp hbad
    unfold protectedRoute verifyJWT
    rw [hv, hp]
    rcases hbad with hw | ⟨hw, hver⟩
    · have hspki : importSPKI pem = none := by simp [importSPKI, hw]
      simp only [hspki]
    · have hspki : importSPKI pem = some { keyId := pem.keyId } := by simp [importSPKI, hw]
      simp only [hspki, hver]
  · intro v pem p hv hp hw hver
    have hspki : importSPKI pem = some { keyId := pem.keyId } := by simp [importSPKI, hw]
    constructor
    · unfold verifyJWT
      rw [hv, hp]
      simp only [hspki, hver]
    · unfold protectedRoute verifyJWT
      rw [hv, hp]
      simp only [hspki, hver]
  · cases hg : verifyJWT cfg cookies now with
    | deny s b =>
      right
      exact ⟨s, b, rfl, by unfold protectedRoute; rw [hg]⟩
    | allow p =>
      left
      exact ⟨p, rfl, by unfold protectedRoute; rw [hg]⟩

/-- Witness for C1: concrete denials and a concrete admission. -/
theorem verifyJWT_gate_spec_witness :
    protectedRoute (fun p => .reply 200 (.user p.claims) []) cfg0
        { accessToken := none, refreshToken := none } 1000
      = .reply 401 (.code "ACCESS_TOKEN_EXPIRED") []
    ∧ protectedRoute (fun p => .reply 200 (.user p.claims) []) cfg0
        { accessToken := some (.jwt { claims := claims0, exp := 99999, sigKey := 7 }),
          refreshToken := none } 1000
      = .reply 200 (.user claims0) []
    ∧ protectedRoute (fun p => .reply 200 (.user p.claims) []) cfg0
        { accessToken := some (.malformed "tampered"), refreshToken := none } 1000
      = .reply 403 (.msg "Invalid access token") [] :=
  ⟨(verifyJWT_gate_spec _ cfg0 { accessToken := none, refreshToken := none } 1000).1 rfl,
   ((verifyJWT_gate_spec _ cfg0
      { accessToken := some (.jwt { claims := claims0, exp := 99999, sigKey := 7 }),
        refreshToken := none } 1000).2.2.2.2.1
      (.jwt { claims := claims0, exp := 99999, sigKey := 7 }) pem0
      { claims := claims0, exp := 99999 } rfl rfl rfl (by decide)).2,
   (verifyJWT_gate_spec _ cfg0
      { accessToken := some (.malformed "tampered"), refreshToken := none } 1000).2.2.2.1
      (.malformed "tampered") pem0 rfl rfl (Or.inr ⟨rfl, rfl⟩)⟩
